import Mathlib

/-!
Verification of the Techridge affordability engine.

The engine is a pure calculation library (src/techridge-app/lib/model.ts and a
near-identical variant in the repository using a finer income-band scheme).
JavaScript numbers are modelled as exact rationals (ℚ); Math.floor is Int.floor,
Math.round is floor of x + 1/2 (ECMAScript rounds half toward positive
infinity), and the JavaScript Infinity used as the upper bound of the top income
band is modelled by an Option upper bound (none = unbounded).

Namespace TR embeds src/techridge-app/lib/model.ts (coarse B1-B7 bands).
Namespace Fine embeds the fine-band variant (src/unnamed/part_011) where it
differs: the band table, getIncomeBand, and its non-rounding applyIncomeGrowth.
-/

set_option maxRecDepth 10000

namespace TR

/-- Income bands B1-B7 from model.ts. -/
inductive IncomeBand
  | B1 | B2 | B3 | B4 | B5 | B6 | B7
  deriving DecidableEq, Repr

/-- Housing products from model.ts. -/
inductive ProductType
  | apartments | condos | blackridge | townhouses
  deriving DecidableEq, Repr

/-- Income scenario selector (base salary vs on-target earnings). -/
inductive IncomeScenario
  | base | full
  deriving DecidableEq, Repr

/-- Loan classification returned by getLoanParams. -/
inductive LoanType
  | FHA | Conventional | Jumbo
  deriving DecidableEq, Repr

def FHA_RATE : ℚ := 0.0615
def CONV_RATE : ℚ := 0.0645
def DTI_LIMIT : ℚ := 0.45
def FHA_LIMIT : ℚ := 680000
def FHA_DOWN_PAYMENT : ℚ := 0.035
def CONV_DOWN_PAYMENT : ℚ := 0.10
def TAX_INS_HOA_RATE : ℚ := 0.012
def RENT_AFFORDABILITY : ℚ := 0.35
def INCOME_GROWTH_RATE : ℚ := 0.04

/-- INCOME_BANDS record from model.ts: band to (lower bound, upper bound),
with none standing for the JavaScript Infinity upper bound of B7. -/
def INCOME_BANDS : IncomeBand → ℚ × Option ℚ
  | .B1 => (35000, some 60000)
  | .B2 => (60000, some 80000)
  | .B3 => (80000, some 110000)
  | .B4 => (110000, some 150000)
  | .B5 => (150000, some 200000)
  | .B6 => (200000, some 300000)
  | .B7 => (300000, none)

/-- Comparison x < max where max may be the JavaScript Infinity (none). -/
def ltMaxB (x : ℚ) : Option ℚ → Bool
  | none => true
  | some m => decide (x < m)

/-- Household multipliers from model.ts. -/
def H1_MULTIPLIER : ℚ := 1.0
def H2_MULTIPLIER : ℚ := 1.7
def H3_MULTIPLIER : ℚ := 2.0

/-- Purchase kind of a product. -/
inductive PurchaseKind
  | rent | buy
  deriving DecidableEq, Repr

/-- Product configuration: kind and price or rent range. -/
structure ProductConfig where
  kind : PurchaseKind
  range : ℚ × ℚ
  deriving DecidableEq, Repr

/-- PRODUCTS table from model.ts. -/
def PRODUCTS : ProductType → ProductConfig
  | .apartments => ⟨.rent, (1700, 4500)⟩
  | .condos => ⟨.buy, (450000, 650000)⟩
  | .blackridge => ⟨.buy, (620000, 680000)⟩
  | .townhouses => ⟨.buy, (1100000, 2100000)⟩

/-- The real-valued maximum purchase price of calculateMaxPurchasePrice, before
the final Math.floor (the maxPrice local in the source). -/
def calculateMaxPurchasePriceReal
    (annualIncome interestRate downPaymentPct dtiLimit : ℚ) : ℚ :=
  let monthlyGross := annualIncome / 12
  let maxMonthlyPayment := monthlyGross * dtiLimit
  let monthlyRate := interestRate / 12
  let numMonths : ℕ := 360
  let mortgageFactor :=
    (monthlyRate * (1 + monthlyRate) ^ numMonths) /
      ((1 + monthlyRate) ^ numMonths - 1)
  let denominator :=
    (1 - downPaymentPct) * mortgageFactor + TAX_INS_HOA_RATE / 12
  maxMonthlyPayment / denominator

/-- calculateMaxPurchasePrice from model.ts: the floored price, as a JavaScript
number (integer-valued rational). -/
def calculateMaxPurchasePrice
    (annualIncome interestRate downPaymentPct dtiLimit : ℚ) : ℚ :=
  ((⌊calculateMaxPurchasePriceReal annualIncome interestRate downPaymentPct dtiLimit⌋ : ℤ) : ℚ)

/-- Loan parameters returned by getLoanParams. -/
structure LoanParams where
  rate : ℚ
  downPayment : ℚ
  loanType : LoanType
  deriving DecidableEq, Repr

/-- getLoanParams from model.ts, including the dead Conventional branch in the
ternary of the source. -/
def getLoanParams (purchasePrice : ℚ) : LoanParams :=
  if purchasePrice ≤ FHA_LIMIT then
    ⟨FHA_RATE, FHA_DOWN_PAYMENT, .FHA⟩
  else
    ⟨CONV_RATE, CONV_DOWN_PAYMENT,
      if purchasePrice > FHA_LIMIT then .Jumbo else .Conventional⟩

/-- Result record of calculateAffordability. -/
structure AffordabilityResult where
  maxPrice : ℚ
  affordableProducts : List ProductType
  monthlyBudget : ℚ
  deriving DecidableEq, Repr

/-- calculateAffordability from model.ts. The optional customRate argument is
an Option; the JavaScript nullish-coalescing operator is Option.getD. -/
def calculateAffordability (annualIncome : ℚ) (customRate : Option ℚ) :
    AffordabilityResult :=
  let monthlyIncome := annualIncome / 12
  let monthlyBudget := monthlyIncome * DTI_LIMIT
  let rate := customRate.getD FHA_RATE
  let maxPrice0 := calculateMaxPurchasePrice annualIncome rate FHA_DOWN_PAYMENT DTI_LIMIT
  let maxPrice :=
    if maxPrice0 > FHA_LIMIT then
      calculateMaxPurchasePrice annualIncome (customRate.getD CONV_RATE)
        CONV_DOWN_PAYMENT DTI_LIMIT
    else maxPrice0
  let maxRent := monthlyIncome * RENT_AFFORDABILITY
  let products0 : List ProductType := []
  let products1 :=
    if maxRent ≥ (PRODUCTS .apartments).range.1 then products0 ++ [.apartments]
    else products0
  let products2 :=
    if maxPrice ≥ (PRODUCTS .condos).range.1 then products1 ++ [.condos]
    else products1
  let products3 :=
    if maxPrice ≥ (PRODUCTS .blackridge).range.1 then products2 ++ [.blackridge]
    else products2
  let products4 :=
    if maxPrice ≥ (PRODUCTS .townhouses).range.1 ∧ annualIncome ≥ (INCOME_BANDS .B6).1 then
      products3 ++ [.townhouses]
    else products3
  ⟨maxPrice, products4, monthlyBudget⟩

/-- assignIncomeBand from model.ts: first band in B1..B7 order whose
half-open interval contains the income, defaulting to B7. -/
def assignIncomeBand (annualIncome : ℚ) : IncomeBand :=
  match ([.B1, .B2, .B3, .B4, .B5, .B6, .B7] : List IncomeBand).find?
      (fun band =>
        decide ((INCOME_BANDS band).1 ≤ annualIncome) &&
          ltMaxB annualIncome (INCOME_BANDS band).2) with
  | some band => band
  | none => .B7

/-- Math.round of ECMAScript: floor of x + 1/2 (half rounds toward +inf). -/
def jsRound (x : ℚ) : ℤ := ⌊x + 1 / 2⌋

/-- applyIncomeGrowth from model.ts: compound growth then Math.round. -/
def applyIncomeGrowth (baseIncome : ℚ) (yearsAfterBase : ℤ) : ℚ :=
  ((jsRound (baseIncome * (1 + INCOME_GROWTH_RATE) ^ yearsAfterBase) : ℤ) : ℚ)

/-- Household split weights of a Role. -/
structure HouseholdSplit where
  H1_single : ℚ
  H2_dual_moderate : ℚ
  H3_dual_peer : ℚ
  deriving DecidableEq, Repr

/-- Role record from model.ts. -/
structure Role where
  title : String
  count : ℚ
  base_salary : ℚ
  ote : ℚ
  is_entry_level : Bool
  segment_type : String
  household_split : HouseholdSplit
  deriving DecidableEq, Repr

/-- One projection-year anchor of a Company. -/
structure ProjectionYear where
  year : ℤ
  employee_count : ℚ
  deriving DecidableEq, Repr

/-- Company record from model.ts. -/
structure Company where
  name : String
  base_year : ℤ
  employee_count : ℚ
  projection_years : Option (List ProjectionYear)
  roles : List Role
  deriving DecidableEq, Repr

/-- The scale-factor computation at the top of computeHouseholdBandCounts:
1.0 unless the projection list is nonempty and has anchors for both the base
year and the target year, in which case the ratio of the two headcounts. -/
def scaleFactorOf (company : Company) (targetYear : ℤ) : ℚ :=
  match company.projection_years with
  | none => 1
  | some pys =>
    if 0 < pys.length then
      match pys.find? (fun p => p.year == company.base_year),
            pys.find? (fun p => p.year == targetYear) with
      | some baseYearProj, some targetYearProj =>
          targetYearProj.employee_count / baseYearProj.employee_count
      | _, _ => 1
    else 1

/-- Pointwise update of a band-count map (the += of the source loop). -/
def addToBand (m : IncomeBand → ℚ) (b : IncomeBand) (q : ℚ) : IncomeBand → ℚ :=
  fun b' => if b' = b then m b' + q else m b'

/-- One iteration of the role loop of computeHouseholdBandCounts. -/
def processRole (scaleFactor : ℚ) (yearsAfterBase : ℤ) (scenario : IncomeScenario)
    (acc : IncomeBand → ℚ) (role : Role) : IncomeBand → ℚ :=
  let scaledCount := role.count * scaleFactor
  let baseIncome :=
    match scenario with
    | .base => role.base_salary
    | .full => role.ote
  let projectedIncome := applyIncomeGrowth baseIncome yearsAfterBase
  let h1Income := projectedIncome * H1_MULTIPLIER
  let h1Band := assignIncomeBand h1Income
  let acc1 := addToBand acc h1Band (scaledCount * role.household_split.H1_single)
  let h2Income := projectedIncome * H2_MULTIPLIER
  let h2Band := assignIncomeBand h2Income
  let acc2 := addToBand acc1 h2Band (scaledCount * role.household_split.H2_dual_moderate)
  let h3Income := projectedIncome * H3_MULTIPLIER
  let h3Band := assignIncomeBand h3Income
  addToBand acc2 h3Band (scaledCount * role.household_split.H3_dual_peer)

/-- computeHouseholdBandCounts from model.ts, as a fold of the role loop over
a zero-initialised band-count map. -/
def computeHouseholdBandCounts (company : Company) (targetYear : ℤ)
    (scenario : IncomeScenario) : IncomeBand → ℚ :=
  let yearsAfterBase := targetYear - company.base_year
  let scaleFactor := scaleFactorOf company targetYear
  company.roles.foldl (processRole scaleFactor yearsAfterBase scenario) (fun _ => 0)

/-- One entry of the affordability lookup table. -/
structure BandAffordability where
  band : IncomeBand
  rate : ℚ
  maxPrice : ℚ
  affordableProducts : List ProductType
  representativeIncome : ℚ
  deriving Repr

/-- One row of the demand summary output. -/
structure DemandSummary where
  productType : ProductType
  householdCount : ℤ
  percentage : ℚ
  deriving DecidableEq, Repr

/-- The integer of hundredths rendered by the lookup-key fragment
(rate * 100).toFixed(2): ECMAScript toFixed picks the integer n closest to
rate * 100 * 100, ties toward the larger value, which is jsRound. The string
keys band_X.XX of the TypeScript record are modelled as the pair of the band
and this integer. -/
def rateKeyHundredths (rate : ℚ) : ℤ := jsRound (rate * 10000)

/-- Pointwise update of a product-count map (the += of the source loop). -/
def addToProduct (m : ProductType → ℚ) (p : ProductType) (q : ℚ) : ProductType → ℚ :=
  fun p' => if p' = p then m p' + q else m p'

/-- summarizeDemandByProduct from model.ts. The lookup-table record is a
function from band and rate key to an optional entry; a missing entry (the
falsy branch of the source) contributes nothing to the product counts but its
band count still enters the household total. -/
def summarizeDemandByProduct (householdBandCounts : IncomeBand → ℚ)
    (affordabilityLookup : IncomeBand → ℤ → Option BandAffordability)
    (rate : ℚ) : List DemandSummary :=
  let bands : List IncomeBand := [.B1, .B2, .B3, .B4, .B5, .B6, .B7]
  let step := fun (st : (ProductType → ℚ) × ℚ) (band : IncomeBand) =>
    let count := householdBandCounts band
    let total := st.2 + count
    match affordabilityLookup band (rateKeyHundredths rate) with
    | some aff =>
        (aff.affordableProducts.foldl (fun pc p => addToProduct pc p count) st.1, total)
    | none => (st.1, total)
  let res := bands.foldl step (fun _ => 0, 0)
  let productCounts := res.1
  let totalHouseholds := res.2
  ([.apartments, .condos, .blackridge, .townhouses] : List ProductType).map
    (fun p =>
      ⟨p, jsRound (productCounts p),
        if totalHouseholds > 0 then productCounts p / totalHouseholds * 100 else 0⟩)

end TR

namespace Fine

/-- Granular income bands of the fine-band variant ($10k increments). -/
inductive IncomeBand
  | B_30K | B_40K | B_50K | B_60K | B_70K | B_80K | B_90K
  | B_100K | B_110K | B_120K | B_130K | B_140K | B_150K
  | B_160K | B_170K | B_180K | B_190K | B_200K | B_225K
  | B_250K | B_300K | B_350K | B_400K_PLUS
  deriving DecidableEq, Repr

/-- The INCOME_BANDS array of the fine-band variant, in declaration order. -/
def INCOME_BANDS_LIST : List IncomeBand :=
  [.B_30K, .B_40K, .B_50K, .B_60K, .B_70K, .B_80K, .B_90K,
   .B_100K, .B_110K, .B_120K, .B_130K, .B_140K, .B_150K,
   .B_160K, .B_170K, .B_180K, .B_190K, .B_200K, .B_225K,
   .B_250K, .B_300K, .B_350K, .B_400K_PLUS]

/-- One row of BAND_RANGES; max none stands for the JavaScript Infinity. -/
structure BandRange where
  min : ℚ
  max : Option ℚ
  label : String
  deriving DecidableEq, Repr

/-- BAND_RANGES from the fine-band variant: closed integer bounds. -/
def BAND_RANGES : IncomeBand → BandRange
  | .B_30K => ⟨0, some 39999, "< $40k"⟩
  | .B_40K => ⟨40000, some 49999, "$40k - $50k"⟩
  | .B_50K => ⟨50000, some 59999, "$50k - $60k"⟩
  | .B_60K => ⟨60000, some 69999, "$60k - $70k"⟩
  | .B_70K => ⟨70000, some 79999, "$70k - $80k"⟩
  | .B_80K => ⟨80000, some 89999, "$80k - $90k"⟩
  | .B_90K => ⟨90000, some 99999, "$90k - $100k"⟩
  | .B_100K => ⟨100000, some 109999, "$100k - $110k"⟩
  | .B_110K => ⟨110000, some 119999, "$110k - $120k"⟩
  | .B_120K => ⟨120000, some 129999, "$120k - $130k"⟩
  | .B_130K => ⟨130000, some 139999, "$130k - $140k"⟩
  | .B_140K => ⟨140000, some 149999, "$140k - $150k"⟩
  | .B_150K => ⟨150000, some 159999, "$150k - $160k"⟩
  | .B_160K => ⟨160000, some 169999, "$160k - $170k"⟩
  | .B_170K => ⟨170000, some 179999, "$170k - $180k"⟩
  | .B_180K => ⟨180000, some 189999, "$180k - $190k"⟩
  | .B_190K => ⟨190000, some 199999, "$190k - $200k"⟩
  | .B_200K => ⟨200000, some 224999, "$200k - $225k"⟩
  | .B_225K => ⟨225000, some 249999, "$225k - $250k"⟩
  | .B_250K => ⟨250000, some 299999, "$250k - $300k"⟩
  | .B_300K => ⟨300000, some 349999, "$300k - $350k"⟩
  | .B_350K => ⟨350000, some 399999, "$350k - $400k"⟩
  | .B_400K_PLUS => ⟨400000, none, "$400k+"⟩

/-- Comparison income <= max where max may be the JavaScript Infinity (none). -/
def leMaxB (x : ℚ) : Option ℚ → Bool
  | none => true
  | some m => decide (x ≤ m)

/-- getIncomeBand from the fine-band variant: first band in declaration order
whose closed interval contains the income, defaulting to the top band. -/
def getIncomeBand (income : ℚ) : IncomeBand :=
  match INCOME_BANDS_LIST.find?
      (fun band =>
        decide ((BAND_RANGES band).min ≤ income) &&
          leMaxB income (BAND_RANGES band).max) with
  | some band => band
  | none => .B_400K_PLUS

def INCOME_GROWTH_RATE : ℚ := 0.04

/-- applyIncomeGrowth from the fine-band variant: compound growth, no rounding. -/
def applyIncomeGrowth (income : ℚ) (years : ℤ) : ℚ :=
  income * (1 + INCOME_GROWTH_RATE) ^ years

end Fine

/-- Membership of an income in the half-open interval of a coarse band
(the interval notion of the spec, with the B7 upper bound unbounded). -/
def inBandC (x : ℚ) (b : TR.IncomeBand) : Prop :=
  (TR.INCOME_BANDS b).1 ≤ x ∧
    match (TR.INCOME_BANDS b).2 with
    | none => True
    | some m => x < m

/-- Membership of an income in the closed interval of a fine band. -/
def inBandF (x : ℚ) (b : Fine.IncomeBand) : Prop :=
  (Fine.BAND_RANGES b).min ≤ x ∧
    match (Fine.BAND_RANGES b).max with
    | none => True
    | some m => x ≤ m

/-- Sum of a coarse band-count map over all seven bands. -/
def sumBands (m : TR.IncomeBand → ℚ) : ℚ :=
  m .B1 + m .B2 + m .B3 + m .B4 + m .B5 + m .B6 + m .B7

/-- The weight sum of the household split of a role. -/
def splitSum (role : TR.Role) : ℚ :=
  role.household_split.H1_single + role.household_split.H2_dual_moderate +
    role.household_split.H3_dual_peer

/-- A one-role company used to instantiate the aggregate theorems (the role of
the end-to-end scenario of the spec). -/
def exampleCompany : TR.Company :=
  { name := "Acme"
    base_year := 2025
    employee_count := 100
    projection_years := none
    roles := [{ title := "Engineer"
                count := 100
                base_salary := 80000
                ote := 95000
                is_entry_level := false
                segment_type := "tech"
                household_split := { H1_single := 0.6
                                     H2_dual_moderate := 0.3
                                     H3_dual_peer := 0.1 } }] }

/-- A band-count map with a single nonzero band, used to exercise the demand
summariser on a lookup table that misses every key. -/
def exampleBandCounts : TR.IncomeBand → ℚ :=
  fun b => if b = .B3 then 5 else 0

/-- A second rendering of the C1 spec sentence, written from the spec text:
P = maxMonthlyPayment / ((1-downPaymentFraction)*f + taxInsHoaRate/12) with
maxMonthlyPayment = (annualIncome/12)*dtiLimit, r = interestRate/12,
f = r(1+r)^360 / ((1+r)^360 - 1), taxInsHoaRate = 0.012. -/
def specMaxPriceFormula
    (annualIncome interestRate downPaymentFraction dtiLimit : ℚ) : ℚ :=
  let maxMonthlyPayment := annualIncome / 12 * dtiLimit
  let r := interestRate / 12
  let f := r * (1 + r) ^ (360 : ℕ) / ((1 + r) ^ (360 : ℕ) - 1)
  let taxInsHoaRate : ℚ := 0.012
  maxMonthlyPayment / ((1 - downPaymentFraction) * f + taxInsHoaRate / 12)

/-- C1: for positive income and rate, down payment in [0,1) and DTI in (0,1],
calculateMaxPurchasePrice equals the floor of the spec formula
maxMonthlyPayment / ((1-downPaymentFraction)*f + taxInsHoaRate/12), and in
particular the result is an integer dollar amount. -/
theorem C1_maxPurchasePrice_matches_spec_formula
    (annualIncome interestRate downPaymentFraction dtiLimit : ℚ)
    (hIncome : 0 < annualIncome) (hRate : 0 < interestRate)
    (hDown0 : 0 ≤ downPaymentFraction) (hDown1 : downPaymentFraction < 1)
    (hDti0 : 0 < dtiLimit) (hDti1 : dtiLimit ≤ 1) :
    TR.calculateMaxPurchasePrice annualIncome interestRate downPaymentFraction dtiLimit
        = ((⌊specMaxPriceFormula annualIncome interestRate downPaymentFraction dtiLimit⌋ : ℤ) : ℚ) ∧
      ∃ n : ℤ,
        TR.calculateMaxPurchasePrice annualIncome interestRate downPaymentFraction dtiLimit
          = (n : ℚ) := by
  refine ⟨rfl, ⟨⌊specMaxPriceFormula annualIncome interestRate downPaymentFraction dtiLimit⌋, rfl⟩⟩

/-- Witness for C1 at income 100000, rate 0.0615, down payment 0.035, DTI 0.45. -/
theorem C1_witness :
    (0 : ℚ) < 100000 ∧ (0 : ℚ) < 0.0615 ∧ (0 : ℚ) ≤ 0.035 ∧ (0.035 : ℚ) < 1 ∧
      (0 : ℚ) < 0.45 ∧ (0.45 : ℚ) ≤ 1 ∧
      TR.calculateMaxPurchasePrice 100000 0.0615 0.035 0.45
        = ((⌊specMaxPriceFormula 100000 0.0615 0.035 0.45⌋ : ℤ) : ℚ) :=
  ⟨by norm_num, by norm_num, by norm_num, by norm_num, by norm_num, by norm_num,
    (C1_maxPurchasePrice_matches_spec_formula 100000 0.0615 0.035 0.45
      (by norm_num) (by norm_num) (by norm_num) (by norm_num) (by norm_num) (by norm_num)).1⟩

/-- C9 counterexample: the model.ts applyIncomeGrowth rounds, so the growth
identity fails at the non-integer base income 1/2: the code returns 1. -/
theorem C9_counterexample :
    TR.applyIncomeGrowth (1 / 2) 0 = 1 ∧ ((1 : ℚ) / 2) ≠ 1 := by
  constructor
  · show ((TR.jsRound ((1 : ℚ) / 2 * (1 + TR.INCOME_GROWTH_RATE) ^ (0 : ℤ)) : ℤ) : ℚ) = 1
    norm_num [TR.jsRound]
  · norm_num

/-- C9 amended: the fine-band variant applyIncomeGrowth equals
x * (1 + 0.04)^n for every x and every integer n (negative included, with no
special-casing), hence satisfies the identity at n = 0; the model.ts variant
instead returns Math.round(x * (1.04)^n), so its identity at n = 0 holds
exactly on integer base incomes. -/
theorem C9_applyIncomeGrowth_amended :
    (∀ (x : ℚ) (n : ℤ),
        Fine.applyIncomeGrowth x n = x * (1 + Fine.INCOME_GROWTH_RATE) ^ n) ∧
      (∀ x : ℚ, Fine.applyIncomeGrowth x 0 = x) ∧
      (∀ (x : ℚ) (n : ℤ),
        TR.applyIncomeGrowth x n
          = ((TR.jsRound (x * (1 + TR.INCOME_GROWTH_RATE) ^ n) : ℤ) : ℚ)) ∧
      (∀ z : ℤ, TR.applyIncomeGrowth (z : ℚ) 0 = (z : ℚ)) := by
  refine ⟨fun x n => rfl, fun x => ?_, fun x n => rfl, fun z => ?_⟩
  · simp [Fine.applyIncomeGrowth]
  · show ((TR.jsRound ((z : ℚ) * (1 + TR.INCOME_GROWTH_RATE) ^ (0 : ℤ)) : ℤ) : ℚ) = (z : ℚ)
    norm_num [TR.jsRound, Int.floor_int_add]

/-- C10: getLoanParams returns the FHA parameters (FHA rate, 3.5 percent down)
exactly when the purchase price is at most 680000, the Jumbo parameters
(conventional rate, 10 percent down) exactly when it is above 680000, and the
Conventional loan type declared in its return type is never produced. -/
theorem C10_getLoanParams_classification (purchasePrice : ℚ) :
    (purchasePrice ≤ TR.FHA_LIMIT →
        TR.getLoanParams purchasePrice
          = ⟨TR.FHA_RATE, TR.FHA_DOWN_PAYMENT, TR.LoanType.FHA⟩) ∧
      (TR.FHA_LIMIT < purchasePrice →
        TR.getLoanParams purchasePrice
          = ⟨TR.CONV_RATE, TR.CONV_DOWN_PAYMENT, TR.LoanType.Jumbo⟩) ∧
      (TR.getLoanParams purchasePrice).loanType ≠ TR.LoanType.Conventional := by
  by_cases h : purchasePrice ≤ TR.FHA_LIMIT
  · refine ⟨fun _ => ?_, fun h2 => absurd h2 (not_lt.mpr h), ?_⟩
    · simp [TR.getLoanParams, h]
    · simp [TR.getLoanParams, h]
  · have h2 : TR.FHA_LIMIT < purchasePrice := not_le.mp h
    refine ⟨fun h3 => absurd h3 h, fun _ => ?_, ?_⟩
    · simp [TR.getLoanParams, h, h2]
    · simp [TR.getLoanParams, h, h2]

/-- Witness for C10 at the concrete purchase prices 500000 and 700000. -/
theorem C10_witness :
    TR.getLoanParams 500000
        = ⟨TR.FHA_RATE, TR.FHA_DOWN_PAYMENT, TR.LoanType.FHA⟩ ∧
      TR.getLoanParams 700000
        = ⟨TR.CONV_RATE, TR.CONV_DOWN_PAYMENT, TR.LoanType.Jumbo⟩ ∧
      (TR.getLoanParams 700000).loanType ≠ TR.LoanType.Conventional :=
  ⟨(C10_getLoanParams_classification 500000).1 (by norm_num [TR.FHA_LIMIT]),
    (C10_getLoanParams_classification 700000).2.1 (by norm_num [TR.FHA_LIMIT]),
    (C10_getLoanParams_classification 700000).2.2⟩

/-- C5: townhouses is in the affordable products exactly when the computed max
price is at least 1100000 (the townhouse range minimum) and the annual income
is at least the 200000 guardrail (the B6 lower bound). -/
theorem C5_townhouse_guardrail (annualIncome : ℚ) (customRate : Option ℚ) :
    TR.ProductType.townhouses
        ∈ (TR.calculateAffordability annualIncome customRate).affordableProducts ↔
      ((TR.calculateAffordability annualIncome customRate).maxPrice ≥ 1100000 ∧
        annualIncome ≥ 200000) := by
  unfold TR.calculateAffordability
  simp only [TR.PRODUCTS, TR.INCOME_BANDS]
  split_ifs <;> simp_all

/-- An income inside the interval of a coarse band is assigned that band. -/
lemma coarse_mem_assign (x : ℚ) (b : TR.IncomeBand) (hb : inBandC x b) :
    TR.assignIncomeBand x = b := by
  cases b <;> simp only [inBandC, TR.INCOME_BANDS, and_true] at hb
  · obtain ⟨hb1, hb2⟩ := hb
    simp [TR.assignIncomeBand, List.find?, TR.INCOME_BANDS, TR.ltMaxB, hb1, hb2]
  · obtain ⟨hb1, hb2⟩ := hb
    have np0 : ¬ (x < 60000) := by linarith
    simp [TR.assignIncomeBand, List.find?, TR.INCOME_BANDS, TR.ltMaxB, np0, hb1, hb2]
  · obtain ⟨hb1, hb2⟩ := hb
    have np0 : ¬ (x < 60000) := by linarith
    have np1 : ¬ (x < 80000) := by linarith
    simp [TR.assignIncomeBand, List.find?, TR.INCOME_BANDS, TR.ltMaxB, np0, np1, hb1, hb2]
  · obtain ⟨hb1, hb2⟩ := hb
    have np0 : ¬ (x < 60000) := by linarith
    have np1 : ¬ (x < 80000) := by linarith
    have np2 : ¬ (x < 110000) := by linarith
    simp [TR.assignIncomeBand, List.find?, TR.INCOME_BANDS, TR.ltMaxB, np0, np1, np2, hb1, hb2]
  · obtain ⟨hb1, hb2⟩ := hb
    have np0 : ¬ (x < 60000) := by linarith
    have np1 : ¬ (x < 80000) := by linarith
    have np2 : ¬ (x < 110000) := by linarith
    have np3 : ¬ (x < 150000) := by linarith
    simp [TR.assignIncomeBand, List.find?, TR.INCOME_BANDS, TR.ltMaxB, np0, np1, np2, np3, hb1, hb2]
  · obtain ⟨hb1, hb2⟩ := hb
    have np0 : ¬ (x < 60000) := by linarith
    have np1 : ¬ (x < 80000) := by linarith
    have np2 : ¬ (x < 110000) := by linarith
    have np3 : ¬ (x < 150000) := by linarith
    have np4 : ¬ (x < 200000) := by linarith
    simp [TR.assignIncomeBand, List.find?, TR.INCOME_BANDS, TR.ltMaxB, np0, np1, np2, np3, np4, hb1, hb2]
  · have hb1 := hb
    have np0 : ¬ (x < 60000) := by linarith
    have np1 : ¬ (x < 80000) := by linarith
    have np2 : ¬ (x < 110000) := by linarith
    have np3 : ¬ (x < 150000) := by linarith
    have np4 : ¬ (x < 200000) := by linarith
    have np5 : ¬ (x < 300000) := by linarith
    simp [TR.assignIncomeBand, List.find?, TR.INCOME_BANDS, TR.ltMaxB, np0, np1, np2, np3, np4, np5, hb1]

/-- Every income at or above 35000 lies in some coarse band. -/
lemma coarse_cover (x : ℚ) (h : 35000 ≤ x) : ∃ b, inBandC x b := by
  rcases lt_or_le x 60000 with h0 | h0
  · exact ⟨.B1, by simp only [inBandC, TR.INCOME_BANDS]; exact ⟨h, h0⟩⟩
  rcases lt_or_le x 80000 with h1 | h1
  · exact ⟨.B2, by simp only [inBandC, TR.INCOME_BANDS]; exact ⟨h0, h1⟩⟩
  rcases lt_or_le x 110000 with h2 | h2
  · exact ⟨.B3, by simp only [inBandC, TR.INCOME_BANDS]; exact ⟨h1, h2⟩⟩
  rcases lt_or_le x 150000 with h3 | h3
  · exact ⟨.B4, by simp only [inBandC, TR.INCOME_BANDS]; exact ⟨h2, h3⟩⟩
  rcases lt_or_le x 200000 with h4 | h4
  · exact ⟨.B5, by simp only [inBandC, TR.INCOME_BANDS]; exact ⟨h3, h4⟩⟩
  rcases lt_or_le x 300000 with h5 | h5
  · exact ⟨.B6, by simp only [inBandC, TR.INCOME_BANDS]; exact ⟨h4, h5⟩⟩
  exact ⟨.B7, by simp only [inBandC, TR.INCOME_BANDS, and_true]; exact h5⟩

/-- An income below 35000 lies in no coarse band, and assignIncomeBand
defaults it to the top band B7. -/
lemma coarse_low (x : ℚ) (h : x < 35000) :
    (∀ b, ¬ inBandC x b) ∧ TR.assignIncomeBand x = .B7 := by
  have np0 : ¬ (35000 ≤ x) := by linarith
  have np1 : ¬ (60000 ≤ x) := by linarith
  have np2 : ¬ (80000 ≤ x) := by linarith
  have np3 : ¬ (110000 ≤ x) := by linarith
  have np4 : ¬ (150000 ≤ x) := by linarith
  have np5 : ¬ (200000 ≤ x) := by linarith
  have np6 : ¬ (300000 ≤ x) := by linarith
  constructor
  · intro b
    cases b <;> simp only [inBandC, TR.INCOME_BANDS, and_true] <;>
      first
        | exact fun hc => np0 hc.1
        | exact fun hc => np1 hc.1
        | exact fun hc => np2 hc.1
        | exact fun hc => np3 hc.1
        | exact fun hc => np4 hc.1
        | exact fun hc => np5 hc.1
        | exact np6
  · simp [TR.assignIncomeBand, List.find?, TR.INCOME_BANDS, TR.ltMaxB,
      np0, np1, np2, np3, np4, np5, np6]

set_option maxHeartbeats 2000000 in
/-- An income inside the closed interval of a fine band is assigned that
band by getIncomeBand. -/
lemma fine_mem_assign (x : ℚ) (b : Fine.IncomeBand) (hb : inBandF x b) :
    Fine.getIncomeBand x = b := by
  cases b <;> simp only [inBandF, Fine.BAND_RANGES, and_true] at hb
  · obtain ⟨hb1, hb2⟩ := hb
    simp [Fine.getIncomeBand, Fine.INCOME_BANDS_LIST, List.find?, Fine.BAND_RANGES,
      Fine.leMaxB, hb1, hb2]
  · obtain ⟨hb1, hb2⟩ := hb
    have np0 : ¬ (x ≤ 39999) := by linarith
    simp [Fine.getIncomeBand, Fine.INCOME_BANDS_LIST, List.find?, Fine.BAND_RANGES,
      Fine.leMaxB, np0, hb1, hb2]
  · obtain ⟨hb1, hb2⟩ := hb
    have np0 : ¬ (x ≤ 39999) := by linarith
    have np1 : ¬ (x ≤ 49999) := by linarith
    simp [Fine.getIncomeBand, Fine.INCOME_BANDS_LIST, List.find?, Fine.BAND_RANGES,
      Fine.leMaxB, np0, np1, hb1, hb2]
  · obtain ⟨hb1, hb2⟩ := hb
    have np0 : ¬ (x ≤ 39999) := by linarith
    have np1 : ¬ (x ≤ 49999) := by linarith
    have np2 : ¬ (x ≤ 59999) := by linarith
    simp [Fine.getIncomeBand, Fine.INCOME_BANDS_LIST, List.find?, Fine.BAND_RANGES,
      Fine.leMaxB, np0, np1, np2, hb1, hb2]
  · obtain ⟨hb1, hb2⟩ := hb
    have np0 : ¬ (x ≤ 39999) := by linarith
    have np1 : ¬ (x ≤ 49999) := by linarith
    have np2 : ¬ (x ≤ 59999) := by linarith
    have np3 : ¬ (x ≤ 69999) := by linarith
    simp [Fine.getIncomeBand, Fine.INCOME_BANDS_LIST, List.find?, Fine.BAND_RANGES,
      Fine.leMaxB, np0, np1, np2, np3, hb1, hb2]
  · obtain ⟨hb1, hb2⟩ := hb
    have np0 : ¬ (x ≤ 39999) := by linarith
    have np1 : ¬ (x ≤ 49999) := by linarith
    have np2 : ¬ (x ≤ 59999) := by linarith
    have np3 : ¬ (x ≤ 69999) := by linarith
    have np4 : ¬ (x ≤ 79999) := by linarith
    simp [Fine.getIncomeBand, Fine.INCOME_BANDS_LIST, List.find?, Fine.BAND_RANGES,
      Fine.leMaxB, np0, np1, np2, np3, np4, hb1, hb2]
  · obtain ⟨hb1, hb2⟩ := hb
    have np0 : ¬ (x ≤ 39999) := by linarith
    have np1 : ¬ (x ≤ 49999) := by linarith
    have np2 : ¬ (x ≤ 59999) := by linarith
    have np3 : ¬ (x ≤ 69999) := by linarith
    have np4 : ¬ (x ≤ 79999) := by linarith
    have np5 : ¬ (x ≤ 89999) := by linarith
    simp [Fine.getIncomeBand, Fine.INCOME_BANDS_LIST, List.find?, Fine.BAND_RANGES,
      Fine.leMaxB, np0, np1, np2, np3, np4, np5, hb1, hb2]
  · obtain ⟨hb1, hb2⟩ := hb
    have np0 : ¬ (x ≤ 39999) := by linarith
    have np1 : ¬ (x ≤ 49999) := by linarith
    have np2 : ¬ (x ≤ 59999) := by linarith
    have np3 : ¬ (x ≤ 69999) := by linarith
    have np4 : ¬ (x ≤ 79999) := by linarith
    have np5 : ¬ (x ≤ 89999) := by linarith
    have np6 : ¬ (x ≤ 99999) := by linarith
    simp [Fine.getIncomeBand, Fine.INCOME_BANDS_LIST, List.find?, Fine.BAND_RANGES,
      Fine.leMaxB, np0, np1, np2, np3, np4, np5, np6, hb1, hb2]
  · obtain ⟨hb1, hb2⟩ := hb
    have np0 : ¬ (x ≤ 39999) := by linarith
    have np1 : ¬ (x ≤ 49999) := by linarith
    have np2 : ¬ (x ≤ 59999) := by linarith
    have np3 : ¬ (x ≤ 69999) := by linarith
    have np4 : ¬ (x ≤ 79999) := by linarith
    have np5 : ¬ (x ≤ 89999) := by linarith
    have np6 : ¬ (x ≤ 99999) := by linarith
    have np7 : ¬ (x ≤ 109999) := by linarith
    simp [Fine.getIncomeBand, Fine.INCOME_BANDS_LIST, List.find?, Fine.BAND_RANGES,
      Fine.leMaxB, np0, np1, np2, np3, np4, np5, np6, np7, hb1, hb2]
  · obtain ⟨hb1, hb2⟩ := hb
    have np0 : ¬ (x ≤ 39999) := by linarith
    have np1 : ¬ (x ≤ 49999) := by linarith
    have np2 : ¬ (x ≤ 59999) := by linarith
    have np3 : ¬ (x ≤ 69999) := by linarith
    have np4 : ¬ (x ≤ 79999) := by linarith
    have np5 : ¬ (x ≤ 89999) := by linarith
    have np6 : ¬ (x ≤ 99999) := by linarith
    have np7 : ¬ (x ≤ 109999) := by linarith
    have np8 : ¬ (x ≤ 119999) := by linarith
    simp [Fine.getIncomeBand, Fine.INCOME_BANDS_LIST, List.find?, Fine.BAND_RANGES,
      Fine.leMaxB, np0, np1, np2, np3, np4, np5, np6, np7, np8, hb1, hb2]
  · obtain ⟨hb1, hb2⟩ := hb
    have np0 : ¬ (x ≤ 39999) := by linarith
    have np1 : ¬ (x ≤ 49999) := by linarith
    have np2 : ¬ (x ≤ 59999) := by linarith
    have np3 : ¬ (x ≤ 69999) := by linarith
    have np4 : ¬ (x ≤ 79999) := by linarith
    have np5 : ¬ (x ≤ 89999) := by linarith
    have np6 : ¬ (x ≤ 99999) := by linarith
    have np7 : ¬ (x ≤ 109999) := by linarith
    have np8 : ¬ (x ≤ 119999) := by linarith
    have np9 : ¬ (x ≤ 129999) := by linarith
    simp [Fine.getIncomeBand, Fine.INCOME_BANDS_LIST, List.find?, Fine.BAND_RANGES,
      Fine.leMaxB, np0, np1, np2, np3, np4, np5, np6, np7, np8, np9, hb1, hb2]
  · obtain ⟨hb1, hb2⟩ := hb
    have np0 : ¬ (x ≤ 39999) := by linarith
    have np1 : ¬ (x ≤ 49999) := by linarith
    have np2 : ¬ (x ≤ 59999) := by linarith
    have np3 : ¬ (x ≤ 69999) := by linarith
    have np4 : ¬ (x ≤ 79999) := by linarith
    have np5 : ¬ (x ≤ 89999) := by linarith
    have np6 : ¬ (x ≤ 99999) := by linarith
    have np7 : ¬ (x ≤ 109999) := by linarith
    have np8 : ¬ (x ≤ 119999) := by linarith
    have np9 : ¬ (x ≤ 129999) := by linarith
    have np10 : ¬ (x ≤ 139999) := by linarith
    simp [Fine.getIncomeBand, Fine.INCOME_BANDS_LIST, List.find?, Fine.BAND_RANGES,
      Fine.leMaxB, np0, np1, np2, np3, np4, np5, np6, np7, np8, np9, np10, hb1, hb2]
  · obtain ⟨hb1, hb2⟩ := hb
    have np0 : ¬ (x ≤ 39999) := by linarith
    have np1 : ¬ (x ≤ 49999) := by linarith
    have np2 : ¬ (x ≤ 59999) := by linarith
    have np3 : ¬ (x ≤ 69999) := by linarith
    have np4 : ¬ (x ≤ 79999) := by linarith
    have np5 : ¬ (x ≤ 89999) := by linarith
    have np6 : ¬ (x ≤ 99999) := by linarith
    have np7 : ¬ (x ≤ 109999) := by linarith
    have np8 : ¬ (x ≤ 119999) := by linarith
    have np9 : ¬ (x ≤ 129999) := by linarith
    have np10 : ¬ (x ≤ 139999) := by linarith
    have np11 : ¬ (x ≤ 149999) := by linarith
    simp [Fine.getIncomeBand, Fine.INCOME_BANDS_LIST, List.find?, Fine.BAND_RANGES,
      Fine.leMaxB, np0, np1, np2, np3, np4, np5, np6, np7, np8, np9, np10, np11, hb1, hb2]
  · obtain ⟨hb1, hb2⟩ := hb
    have np0 : ¬ (x ≤ 39999) := by linarith
    have np1 : ¬ (x ≤ 49999) := by linarith
    have np2 : ¬ (x ≤ 59999) := by linarith
    have np3 : ¬ (x ≤ 69999) := by linarith
    have np4 : ¬ (x ≤ 79999) := by linarith
    have np5 : ¬ (x ≤ 89999) := by linarith
    have np6 : ¬ (x ≤ 99999) := by linarith
    have np7 : ¬ (x ≤ 109999) := by linarith
    have np8 : ¬ (x ≤ 119999) := by linarith
    have np9 : ¬ (x ≤ 129999) := by linarith
    have np10 : ¬ (x ≤ 139999) := by linarith
    have np11 : ¬ (x ≤ 149999) := by linarith
    have np12 : ¬ (x ≤ 159999) := by linarith
    simp [Fine.getIncomeBand, Fine.INCOME_BANDS_LIST, List.find?, Fine.BAND_RANGES,
      Fine.leMaxB, np0, np1, np2, np3, np4, np5, np6, np7, np8, np9, np10, np11, np12, hb1, hb2]
  · obtain ⟨hb1, hb2⟩ := hb
    have np0 : ¬ (x ≤ 39999) := by linarith
    have np1 : ¬ (x ≤ 49999) := by linarith
    have np2 : ¬ (x ≤ 59999) := by linarith
    have np3 : ¬ (x ≤ 69999) := by linarith
    have np4 : ¬ (x ≤ 79999) := by linarith
    have np5 : ¬ (x ≤ 89999) := by linarith
    have np6 : ¬ (x ≤ 99999) := by linarith
    have np7 : ¬ (x ≤ 109999) := by linarith
    have np8 : ¬ (x ≤ 119999) := by linarith
    have np9 : ¬ (x ≤ 129999) := by linarith
    have np10 : ¬ (x ≤ 139999) := by linarith
    have np11 : ¬ (x ≤ 149999) := by linarith
    have np12 : ¬ (x ≤ 159999) := by linarith
    have np13 : ¬ (x ≤ 169999) := by linarith
    simp [Fine.getIncomeBand, Fine.INCOME_BANDS_LIST, List.find?, Fine.BAND_RANGES,
      Fine.leMaxB, np0, np1, np2, np3, np4, np5, np6, np7, np8, np9, np10, np11, np12, np13, hb1, hb2]
  · obtain ⟨hb1, hb2⟩ := hb
    have np0 : ¬ (x ≤ 39999) := by linarith
    have np1 : ¬ (x ≤ 49999) := by linarith
    have np2 : ¬ (x ≤ 59999) := by linarith
    have np3 : ¬ (x ≤ 69999) := by linarith
    have np4 : ¬ (x ≤ 79999) := by linarith
    have np5 : ¬ (x ≤ 89999) := by linarith
    have np6 : ¬ (x ≤ 99999) := by linarith
    have np7 : ¬ (x ≤ 109999) := by linarith
    have np8 : ¬ (x ≤ 119999) := by linarith
    have np9 : ¬ (x ≤ 129999) := by linarith
    have np10 : ¬ (x ≤ 139999) := by linarith
    have np11 : ¬ (x ≤ 149999) := by linarith
    have np12 : ¬ (x ≤ 159999) := by linarith
    have np13 : ¬ (x ≤ 169999) := by linarith
    have np14 : ¬ (x ≤ 179999) := by linarith
    simp [Fine.getIncomeBand, Fine.INCOME_BANDS_LIST, List.find?, Fine.BAND_RANGES,
      Fine.leMaxB, np0, np1, np2, np3, np4, np5, np6, np7, np8, np9, np10, np11, np12, np13, np14, hb1, hb2]
  · obtain ⟨hb1, hb2⟩ := hb
    have np0 : ¬ (x ≤ 39999) := by linarith
    have np1 : ¬ (x ≤ 49999) := by linarith
    have np2 : ¬ (x ≤ 59999) := by linarith
    have np3 : ¬ (x ≤ 69999) := by linarith
    have np4 : ¬ (x ≤ 79999) := by linarith
    have np5 : ¬ (x ≤ 89999) := by linarith
    have np6 : ¬ (x ≤ 99999) := by linarith
    have np7 : ¬ (x ≤ 109999) := by linarith
    have np8 : ¬ (x ≤ 119999) := by linarith
    have np9 : ¬ (x ≤ 129999) := by linarith
    have np10 : ¬ (x ≤ 139999) := by linarith
    have np11 : ¬ (x ≤ 149999) := by linarith
    have np12 : ¬ (x ≤ 159999) := by linarith
    have np13 : ¬ (x ≤ 169999) := by linarith
    have np14 : ¬ (x ≤ 179999) := by linarith
    have np15 : ¬ (x ≤ 189999) := by linarith
    simp [Fine.getIncomeBand, Fine.INCOME_BANDS_LIST, List.find?, Fine.BAND_RANGES,
      Fine.leMaxB, np0, np1, np2, np3, np4, np5, np6, np7, np8, np9, np10, np11, np12, np13, np14, np15, hb1, hb2]
  · obtain ⟨hb1, hb2⟩ := hb
    have np0 : ¬ (x ≤ 39999) := by linarith
    have np1 : ¬ (x ≤ 49999) := by linarith
    have np2 : ¬ (x ≤ 59999) := by linarith
    have np3 : ¬ (x ≤ 69999) := by linarith
    have np4 : ¬ (x ≤ 79999) := by linarith
    have np5 : ¬ (x ≤ 89999) := by linarith
    have np6 : ¬ (x ≤ 99999) := by linarith
    have np7 : ¬ (x ≤ 109999) := by linarith
    have np8 : ¬ (x ≤ 119999) := by linarith
    have np9 : ¬ (x ≤ 129999) := by linarith
    have np10 : ¬ (x ≤ 139999) := by linarith
    have np11 : ¬ (x ≤ 149999) := by linarith
    have np12 : ¬ (x ≤ 159999) := by linarith
    have np13 : ¬ (x ≤ 169999) := by linarith
    have np14 : ¬ (x ≤ 179999) := by linarith
    have np15 : ¬ (x ≤ 189999) := by linarith
    have np16 : ¬ (x ≤ 199999) := by linarith
    simp [Fine.getIncomeBand, Fine.INCOME_BANDS_LIST, List.find?, Fine.BAND_RANGES,
      Fine.leMaxB, np0, np1, np2, np3, np4, np5, np6, np7, np8, np9, np10, np11, np12, np13, np14, np15, np16, hb1, hb2]
  · obtain ⟨hb1, hb2⟩ := hb
    have np0 : ¬ (x ≤ 39999) := by linarith
    have np1 : ¬ (x ≤ 49999) := by linarith
    have np2 : ¬ (x ≤ 59999) := by linarith
    have np3 : ¬ (x ≤ 69999) := by linarith
    have np4 : ¬ (x ≤ 79999) := by linarith
    have np5 : ¬ (x ≤ 89999) := by linarith
    have np6 : ¬ (x ≤ 99999) := by linarith
    have np7 : ¬ (x ≤ 109999) := by linarith
    have np8 : ¬ (x ≤ 119999) := by linarith
    have np9 : ¬ (x ≤ 129999) := by linarith
    have np10 : ¬ (x ≤ 139999) := by linarith
    have np11 : ¬ (x ≤ 149999) := by linarith
    have np12 : ¬ (x ≤ 159999) := by linarith
    have np13 : ¬ (x ≤ 169999) := by linarith
    have np14 : ¬ (x ≤ 179999) := by linarith
    have np15 : ¬ (x ≤ 189999) := by linarith
    have np16 : ¬ (x ≤ 199999) := by linarith
    have np17 : ¬ (x ≤ 224999) := by linarith
    simp [Fine.getIncomeBand, Fine.INCOME_BANDS_LIST, List.find?, Fine.BAND_RANGES,
      Fine.leMaxB, np0, np1, np2, np3, np4, np5, np6, np7, np8, np9, np10, np11, np12, np13, np14, np15, np16, np17, hb1, hb2]
  · obtain ⟨hb1, hb2⟩ := hb
    have np0 : ¬ (x ≤ 39999) := by linarith
    have np1 : ¬ (x ≤ 49999) := by linarith
    have np2 : ¬ (x ≤ 59999) := by linarith
    have np3 : ¬ (x ≤ 69999) := by linarith
    have np4 : ¬ (x ≤ 79999) := by linarith
    have np5 : ¬ (x ≤ 89999) := by linarith
    have np6 : ¬ (x ≤ 99999) := by linarith
    have np7 : ¬ (x ≤ 109999) := by linarith
    have np8 : ¬ (x ≤ 119999) := by linarith
    have np9 : ¬ (x ≤ 129999) := by linarith
    have np10 : ¬ (x ≤ 139999) := by linarith
    have np11 : ¬ (x ≤ 149999) := by linarith
    have np12 : ¬ (x ≤ 159999) := by linarith
    have np13 : ¬ (x ≤ 169999) := by linarith
    have np14 : ¬ (x ≤ 179999) := by linarith
    have np15 : ¬ (x ≤ 189999) := by linarith
    have np16 : ¬ (x ≤ 199999) := by linarith
    have np17 : ¬ (x ≤ 224999) := by linarith
    have np18 : ¬ (x ≤ 249999) := by linarith
    simp [Fine.getIncomeBand, Fine.INCOME_BANDS_LIST, List.find?, Fine.BAND_RANGES,
      Fine.leMaxB, np0, np1, np2, np3, np4, np5, np6, np7, np8, np9, np10, np11, np12, np13, np14, np15, np16, np17, np18, hb1, hb2]
  · obtain ⟨hb1, hb2⟩ := hb
    have np0 : ¬ (x ≤ 39999) := by linarith
    have np1 : ¬ (x ≤ 49999) := by linarith
    have np2 : ¬ (x ≤ 59999) := by linarith
    have np3 : ¬ (x ≤ 69999) := by linarith
    have np4 : ¬ (x ≤ 79999) := by linarith
    have np5 : ¬ (x ≤ 89999) := by linarith
    have np6 : ¬ (x ≤ 99999) := by linarith
    have np7 : ¬ (x ≤ 109999) := by linarith
    have np8 : ¬ (x ≤ 119999) := by linarith
    have np9 : ¬ (x ≤ 129999) := by linarith
    have np10 : ¬ (x ≤ 139999) := by linarith
    have np11 : ¬ (x ≤ 149999) := by linarith
    have np12 : ¬ (x ≤ 159999) := by linarith
    have np13 : ¬ (x ≤ 169999) := by linarith
    have np14 : ¬ (x ≤ 179999) := by linarith
    have np15 : ¬ (x ≤ 189999) := by linarith
    have np16 : ¬ (x ≤ 199999) := by linarith
    have np17 : ¬ (x ≤ 224999) := by linarith
    have np18 : ¬ (x ≤ 249999) := by linarith
    have np19 : ¬ (x ≤ 299999) := by linarith
    simp [Fine.getIncomeBand, Fine.INCOME_BANDS_LIST, List.find?, Fine.BAND_RANGES,
      Fine.leMaxB, np0, np1, np2, np3, np4, np5, np6, np7, np8, np9, np10, np11, np12, np13, np14, np15, np16, np17, np18, np19, hb1, hb2]
  · obtain ⟨hb1, hb2⟩ := hb
    have np0 : ¬ (x ≤ 39999) := by linarith
    have np1 : ¬ (x ≤ 49999) := by linarith
    have np2 : ¬ (x ≤ 59999) := by linarith
    have np3 : ¬ (x ≤ 69999) := by linarith
    have np4 : ¬ (x ≤ 79999) := by linarith
    have np5 : ¬ (x ≤ 89999) := by linarith
    have np6 : ¬ (x ≤ 99999) := by linarith
    have np7 : ¬ (x ≤ 109999) := by linarith
    have np8 : ¬ (x ≤ 119999) := by linarith
    have np9 : ¬ (x ≤ 129999) := by linarith
    have np10 : ¬ (x ≤ 139999) := by linarith
    have np11 : ¬ (x ≤ 149999) := by linarith
    have np12 : ¬ (x ≤ 159999) := by linarith
    have np13 : ¬ (x ≤ 169999) := by linarith
    have np14 : ¬ (x ≤ 179999) := by linarith
    have np15 : ¬ (x ≤ 189999) := by linarith
    have np16 : ¬ (x ≤ 199999) := by linarith
    have np17 : ¬ (x ≤ 224999) := by linarith
    have np18 : ¬ (x ≤ 249999) := by linarith
    have np19 : ¬ (x ≤ 299999) := by linarith
    have np20 : ¬ (x ≤ 349999) := by linarith
    simp [Fine.getIncomeBand, Fine.INCOME_BANDS_LIST, List.find?, Fine.BAND_RANGES,
      Fine.leMaxB, np0, np1, np2, np3, np4, np5, np6, np7, np8, np9, np10, np11, np12, np13, np14, np15, np16, np17, np18, np19, np20, hb1, hb2]
  · have hb1 := hb
    have np0 : ¬ (x ≤ 39999) := by linarith
    have np1 : ¬ (x ≤ 49999) := by linarith
    have np2 : ¬ (x ≤ 59999) := by linarith
    have np3 : ¬ (x ≤ 69999) := by linarith
    have np4 : ¬ (x ≤ 79999) := by linarith
    have np5 : ¬ (x ≤ 89999) := by linarith
    have np6 : ¬ (x ≤ 99999) := by linarith
    have np7 : ¬ (x ≤ 109999) := by linarith
    have np8 : ¬ (x ≤ 119999) := by linarith
    have np9 : ¬ (x ≤ 129999) := by linarith
    have np10 : ¬ (x ≤ 139999) := by linarith
    have np11 : ¬ (x ≤ 149999) := by linarith
    have np12 : ¬ (x ≤ 159999) := by linarith
    have np13 : ¬ (x ≤ 169999) := by linarith
    have np14 : ¬ (x ≤ 179999) := by linarith
    have np15 : ¬ (x ≤ 189999) := by linarith
    have np16 : ¬ (x ≤ 199999) := by linarith
    have np17 : ¬ (x ≤ 224999) := by linarith
    have np18 : ¬ (x ≤ 249999) := by linarith
    have np19 : ¬ (x ≤ 299999) := by linarith
    have np20 : ¬ (x ≤ 349999) := by linarith
    have np21 : ¬ (x ≤ 399999) := by linarith
    simp [Fine.getIncomeBand, Fine.INCOME_BANDS_LIST, List.find?, Fine.BAND_RANGES,
      Fine.leMaxB, np0, np1, np2, np3, np4, np5, np6, np7, np8, np9, np10, np11, np12, np13, np14, np15, np16, np17, np18, np19, np20, np21, hb1]

/-- Every natural-number income lies in some fine band (on integers the
closed integer bounds leave no gap). -/
lemma fine_cover_nat (n : ℕ) : ∃ b, inBandF (n : ℚ) b := by
  rcases Nat.lt_or_ge n 40000 with h0 | h0
  · refine ⟨.B_30K, ?_⟩
    simp only [inBandF, Fine.BAND_RANGES, and_true]
    exact ⟨by positivity, by exact_mod_cast (show n ≤ (39999:ℕ) by omega)⟩
  rcases Nat.lt_or_ge n 50000 with h1 | h1
  · refine ⟨.B_40K, ?_⟩
    simp only [inBandF, Fine.BAND_RANGES, and_true]
    exact ⟨by exact_mod_cast (show (40000:ℕ) ≤ n by omega),
      by exact_mod_cast (show n ≤ (49999:ℕ) by omega)⟩
  rcases Nat.lt_or_ge n 60000 with h2 | h2
  · refine ⟨.B_50K, ?_⟩
    simp only [inBandF, Fine.BAND_RANGES, and_true]
    exact ⟨by exact_mod_cast (show (50000:ℕ) ≤ n by omega),
      by exact_mod_cast (show n ≤ (59999:ℕ) by omega)⟩
  rcases Nat.lt_or_ge n 70000 with h3 | h3
  · refine ⟨.B_60K, ?_⟩
    simp only [inBandF, Fine.BAND_RANGES, and_true]
    exact ⟨by exact_mod_cast (show (60000:ℕ) ≤ n by omega),
      by exact_mod_cast (show n ≤ (69999:ℕ) by omega)⟩
  rcases Nat.lt_or_ge n 80000 with h4 | h4
  · refine ⟨.B_70K, ?_⟩
    simp only [inBandF, Fine.BAND_RANGES, and_true]
    exact ⟨by exact_mod_cast (show (70000:ℕ) ≤ n by omega),
      by exact_mod_cast (show n ≤ (79999:ℕ) by omega)⟩
  rcases Nat.lt_or_ge n 90000 with h5 | h5
  · refine ⟨.B_80K, ?_⟩
    simp only [inBandF, Fine.BAND_RANGES, and_true]
    exact ⟨by exact_mod_cast (show (80000:ℕ) ≤ n by omega),
      by exact_mod_cast (show n ≤ (89999:ℕ) by omega)⟩
  rcases Nat.lt_or_ge n 100000 with h6 | h6
  · refine ⟨.B_90K, ?_⟩
    simp only [inBandF, Fine.BAND_RANGES, and_true]
    exact ⟨by exact_mod_cast (show (90000:ℕ) ≤ n by omega),
      by exact_mod_cast (show n ≤ (99999:ℕ) by omega)⟩
  rcases Nat.lt_or_ge n 110000 with h7 | h7
  · refine ⟨.B_100K, ?_⟩
    simp only [inBandF, Fine.BAND_RANGES, and_true]
    exact ⟨by exact_mod_cast (show (100000:ℕ) ≤ n by omega),
      by exact_mod_cast (show n ≤ (109999:ℕ) by omega)⟩
  rcases Nat.lt_or_ge n 120000 with h8 | h8
  · refine ⟨.B_110K, ?_⟩
    simp only [inBandF, Fine.BAND_RANGES, and_true]
    exact ⟨by exact_mod_cast (show (110000:ℕ) ≤ n by omega),
      by exact_mod_cast (show n ≤ (119999:ℕ) by omega)⟩
  rcases Nat.lt_or_ge n 130000 with h9 | h9
  · refine ⟨.B_120K, ?_⟩
    simp only [inBandF, Fine.BAND_RANGES, and_true]
    exact ⟨by exact_mod_cast (show (120000:ℕ) ≤ n by omega),
      by exact_mod_cast (show n ≤ (129999:ℕ) by omega)⟩
  rcases Nat.lt_or_ge n 140000 with h10 | h10
  · refine ⟨.B_130K, ?_⟩
    simp only [inBandF, Fine.BAND_RANGES, and_true]
    exact ⟨by exact_mod_cast (show (130000:ℕ) ≤ n by omega),
      by exact_mod_cast (show n ≤ (139999:ℕ) by omega)⟩
  rcases Nat.lt_or_ge n 150000 with h11 | h11
  · refine ⟨.B_140K, ?_⟩
    simp only [inBandF, Fine.BAND_RANGES, and_true]
    exact ⟨by exact_mod_cast (show (140000:ℕ) ≤ n by omega),
      by exact_mod_cast (show n ≤ (149999:ℕ) by omega)⟩
  rcases Nat.lt_or_ge n 160000 with h12 | h12
  · refine ⟨.B_150K, ?_⟩
    simp only [inBandF, Fine.BAND_RANGES, and_true]
    exact ⟨by exact_mod_cast (show (150000:ℕ) ≤ n by omega),
      by exact_mod_cast (show n ≤ (159999:ℕ) by omega)⟩
  rcases Nat.lt_or_ge n 170000 with h13 | h13
  · refine ⟨.B_160K, ?_⟩
    simp only [inBandF, Fine.BAND_RANGES, and_true]
    exact ⟨by exact_mod_cast (show (160000:ℕ) ≤ n by omega),
      by exact_mod_cast (show n ≤ (169999:ℕ) by omega)⟩
  rcases Nat.lt_or_ge n 180000 with h14 | h14
  · refine ⟨.B_170K, ?_⟩
    simp only [inBandF, Fine.BAND_RANGES, and_true]
    exact ⟨by exact_mod_cast (show (170000:ℕ) ≤ n by omega),
      by exact_mod_cast (show n ≤ (179999:ℕ) by omega)⟩
  rcases Nat.lt_or_ge n 190000 with h15 | h15
  · refine ⟨.B_180K, ?_⟩
    simp only [inBandF, Fine.BAND_RANGES, and_true]
    exact ⟨by exact_mod_cast (show (180000:ℕ) ≤ n by omega),
      by exact_mod_cast (show n ≤ (189999:ℕ) by omega)⟩
  rcases Nat.lt_or_ge n 200000 with h16 | h16
  · refine ⟨.B_190K, ?_⟩
    simp only [inBandF, Fine.BAND_RANGES, and_true]
    exact ⟨by exact_mod_cast (show (190000:ℕ) ≤ n by omega),
      by exact_mod_cast (show n ≤ (199999:ℕ) by omega)⟩
  rcases Nat.lt_or_ge n 225000 with h17 | h17
  · refine ⟨.B_200K, ?_⟩
    simp only [inBandF, Fine.BAND_RANGES, and_true]
    exact ⟨by exact_mod_cast (show (200000:ℕ) ≤ n by omega),
      by exact_mod_cast (show n ≤ (224999:ℕ) by omega)⟩
  rcases Nat.lt_or_ge n 250000 with h18 | h18
  · refine ⟨.B_225K, ?_⟩
    simp only [inBandF, Fine.BAND_RANGES, and_true]
    exact ⟨by exact_mod_cast (show (225000:ℕ) ≤ n by omega),
      by exact_mod_cast (show n ≤ (249999:ℕ) by omega)⟩
  rcases Nat.lt_or_ge n 300000 with h19 | h19
  · refine ⟨.B_250K, ?_⟩
    simp only [inBandF, Fine.BAND_RANGES, and_true]
    exact ⟨by exact_mod_cast (show (250000:ℕ) ≤ n by omega),
      by exact_mod_cast (show n ≤ (299999:ℕ) by omega)⟩
  rcases Nat.lt_or_ge n 350000 with h20 | h20
  · refine ⟨.B_300K, ?_⟩
    simp only [inBandF, Fine.BAND_RANGES, and_true]
    exact ⟨by exact_mod_cast (show (300000:ℕ) ≤ n by omega),
      by exact_mod_cast (show n ≤ (349999:ℕ) by omega)⟩
  rcases Nat.lt_or_ge n 400000 with h21 | h21
  · refine ⟨.B_350K, ?_⟩
    simp only [inBandF, Fine.BAND_RANGES, and_true]
    exact ⟨by exact_mod_cast (show (350000:ℕ) ≤ n by omega),
      by exact_mod_cast (show n ≤ (399999:ℕ) by omega)⟩
  refine ⟨.B_400K_PLUS, ?_⟩
  simp only [inBandF, Fine.BAND_RANGES, and_true]
  exact_mod_cast (show (400000:ℕ) ≤ n by omega)

/-- The non-integer income 79999.5 falls in the gap between the closed
intervals of B_70K and B_80K: it lies in no fine band, and getIncomeBand
defaults it to the top band. -/
lemma fine_gap :
    (∀ b, ¬ inBandF (79999 + 1 / 2 : ℚ) b) ∧
      Fine.getIncomeBand (79999 + 1 / 2 : ℚ) = .B_400K_PLUS := by
  constructor
  · intro b
    cases b <;> simp only [inBandF, Fine.BAND_RANGES, and_true] <;> norm_num
  · norm_num [Fine.getIncomeBand, Fine.INCOME_BANDS_LIST, List.find?,
      Fine.BAND_RANGES, Fine.leMaxB]


/-- C2 counterexample: the non-negative income 10000 lies below the bottom
coarse band (B1 starts at 35000), is contained in no band, and is assigned the
top band B7 even though 10000 is far below the B7 lower bound 300000. -/
theorem C2_counterexample :
    (0 : ℚ) ≤ 10000 ∧ (10000 : ℚ) < 300000 ∧
      TR.assignIncomeBand 10000 = .B7 ∧ (∀ b, ¬ inBandC 10000 b) := by
  refine ⟨by norm_num, by norm_num, ?_, ?_⟩
  · norm_num [TR.assignIncomeBand, List.find?, TR.INCOME_BANDS, TR.ltMaxB]
  · intro b
    cases b <;> simp only [inBandC, TR.INCOME_BANDS, and_true] <;> norm_num

/-- C2 amended: an income contained in the interval of a band is assigned
exactly that band (and hence at most one band can contain an income); the
coarse bands cover only incomes at or above 35000, and every non-negative
income below 35000 lies in no band yet is assigned the top band B7 by the
default branch; the fine bands have closed integer bounds that cover every
natural-number income, but non-integer incomes in a gap between two bands
(such as 79999.5) lie in no band and are assigned the top band by default. -/
theorem C2_band_assignment_amended :
    (∀ (x : ℚ) (b : TR.IncomeBand), inBandC x b → TR.assignIncomeBand x = b) ∧
      (∀ x : ℚ, 35000 ≤ x → ∃ b, inBandC x b) ∧
      (∀ x : ℚ, x < 35000 → (∀ b, ¬ inBandC x b) ∧ TR.assignIncomeBand x = .B7) ∧
      (∀ (x : ℚ) (b : Fine.IncomeBand), inBandF x b → Fine.getIncomeBand x = b) ∧
      (∀ n : ℕ, ∃ b, inBandF (n : ℚ) b) ∧
      ((∀ b, ¬ inBandF (79999 + 1 / 2 : ℚ) b) ∧
        Fine.getIncomeBand (79999 + 1 / 2 : ℚ) = .B_400K_PLUS) :=
  ⟨coarse_mem_assign, coarse_cover, coarse_low, fine_mem_assign, fine_cover_nat, fine_gap⟩

/-- Witness for C2 at the incomes 50000 (coarse B1), 1000 (below all coarse
bands) and 45000 (fine B_40K). -/
theorem C2_witness :
    inBandC 50000 TR.IncomeBand.B1 ∧ TR.assignIncomeBand 50000 = TR.IncomeBand.B1 ∧
      (35000 : ℚ) ≤ 50000 ∧ (∃ b, inBandC 50000 b) ∧
      (1000 : ℚ) < 35000 ∧ TR.assignIncomeBand 1000 = TR.IncomeBand.B7 ∧
      inBandF 45000 Fine.IncomeBand.B_40K ∧
      Fine.getIncomeBand 45000 = Fine.IncomeBand.B_40K := by
  have h1 : inBandC 50000 TR.IncomeBand.B1 := by
    simp only [inBandC, TR.INCOME_BANDS]
    norm_num
  have h2 : inBandF 45000 Fine.IncomeBand.B_40K := by
    simp only [inBandF, Fine.BAND_RANGES]
    norm_num
  exact ⟨h1, C2_band_assignment_amended.1 50000 _ h1, by norm_num,
    C2_band_assignment_amended.2.1 50000 (by norm_num), by norm_num,
    (C2_band_assignment_amended.2.2.1 1000 (by norm_num)).2, h2,
    C2_band_assignment_amended.2.2.2.1 45000 _ h2⟩

/-- The 360-power of 1 + s exceeds 1 for positive s. -/
lemma one_lt_onePlusPow (s : ℚ) (hs : 0 < s) : 1 < (1 + s) ^ (360 : ℕ) :=
  one_lt_pow₀ (by linarith) (by norm_num)

/-- Positivity of the mortgage factor written over an atom A standing for the
360-power (kept opaque so linear arithmetic never expands the power). -/
lemma mfAtom_pos (s A : ℚ) (hs : 0 < s) (hA : 1 < A) : 0 < s * A / (A - 1) :=
  div_pos (mul_pos hs (by linarith)) (by linarith)

/-- Positivity of the price denominator over an atom A for the 360-power. -/
lemma denomAtom_pos (s A d : ℚ) (hs : 0 < s) (hA : 1 < A) (hd : d < 1) :
    0 < (1 - d) * (s * A / (A - 1)) + TR.TAX_INS_HOA_RATE / 12 := by
  have hmf := mfAtom_pos s A hs hA
  have h2 := mul_pos (show (0 : ℚ) < 1 - d by linarith) hmf
  have h3 : (0 : ℚ) < TR.TAX_INS_HOA_RATE / 12 := by norm_num [TR.TAX_INS_HOA_RATE]
  linarith

/-- The real-valued price is nonpositive when income is nonpositive. -/
lemma mppReal_nonpos (a r d t : ℚ) (ha : a ≤ 0) (hr : 0 < r) (hd : d < 1)
    (ht : 0 ≤ t) : TR.calculateMaxPurchasePriceReal a r d t ≤ 0 := by
  have h1 := one_lt_onePlusPow (r / 12) (by positivity)
  unfold TR.calculateMaxPurchasePriceReal
  simp only
  generalize ((1 : ℚ) + r / 12) ^ (360 : ℕ) = A at h1 ⊢
  have hD := denomAtom_pos (r / 12) A d (by positivity) h1 hd
  have hnum : a / 12 * t ≤ 0 := by
    have h2 : a / 12 ≤ 0 := by linarith
    have h3 := mul_nonneg (neg_nonneg.mpr h2) ht
    nlinarith
  exact div_nonpos_iff.mpr (Or.inr ⟨hnum, le_of_lt hD⟩)

/-- The floored price is nonpositive when income is nonpositive. -/
lemma mpp_nonpos (a r d t : ℚ) (ha : a ≤ 0) (hr : 0 < r) (hd : d < 1)
    (ht : 0 ≤ t) : TR.calculateMaxPurchasePrice a r d t ≤ 0 := by
  unfold TR.calculateMaxPurchasePrice
  have h := mppReal_nonpos a r d t ha hr hd ht
  have h2 : ⌊TR.calculateMaxPurchasePriceReal a r d t⌋ ≤ (0 : ℤ) := by
    have h3 := Int.floor_le_floor h
    simpa using h3
  exact_mod_cast h2

/-- The price at income zero is exactly zero. -/
lemma mpp_zero (r d t : ℚ) : TR.calculateMaxPurchasePrice 0 r d t = 0 := by
  unfold TR.calculateMaxPurchasePrice TR.calculateMaxPurchasePriceReal
  norm_num

/-- C3 counterexample: with the rate argument omitted and income 10000000 the
first step (FHA rate, 3.5 percent down) exceeds the FHA limit, and the
recomputation uses the conventional default rate 6.45 percent, not the FHA
default 6.15 percent: the two would give different prices. -/
theorem C3_counterexample :
    TR.calculateMaxPurchasePrice 10000000 TR.FHA_RATE TR.FHA_DOWN_PAYMENT TR.DTI_LIMIT
        > TR.FHA_LIMIT ∧
      (TR.calculateAffordability 10000000 none).maxPrice
        = TR.calculateMaxPurchasePrice 10000000 TR.CONV_RATE TR.CONV_DOWN_PAYMENT
            TR.DTI_LIMIT ∧
      TR.calculateMaxPurchasePrice 10000000 TR.CONV_RATE TR.CONV_DOWN_PAYMENT TR.DTI_LIMIT
        ≠ TR.calculateMaxPurchasePrice 10000000 TR.FHA_RATE TR.CONV_DOWN_PAYMENT
            TR.DTI_LIMIT := by
  have h : TR.calculateMaxPurchasePrice 10000000 TR.FHA_RATE TR.FHA_DOWN_PAYMENT
      TR.DTI_LIMIT > TR.FHA_LIMIT := by
    norm_num [TR.calculateMaxPurchasePrice, TR.calculateMaxPurchasePriceReal, TR.FHA_RATE,
      TR.FHA_DOWN_PAYMENT, TR.DTI_LIMIT, TR.FHA_LIMIT, TR.TAX_INS_HOA_RATE]
  refine ⟨h, ?_, ?_⟩
  · simp [TR.calculateAffordability, Option.getD_none, h]
  · norm_num [TR.calculateMaxPurchasePrice, TR.calculateMaxPurchasePriceReal, TR.FHA_RATE,
      TR.CONV_RATE, TR.CONV_DOWN_PAYMENT, TR.DTI_LIMIT, TR.TAX_INS_HOA_RATE]

/-- C3 amended: calculateAffordability computes the price at the FHA down
payment with the supplied rate (default FHA rate when omitted); exactly when
that price exceeds 680000 it recomputes once at the conventional down payment
with the supplied rate, but with the conventional default rate 6.45 percent
(not the FHA default) when the rate is omitted; no further iteration happens. -/
theorem C3_two_step_resolution (annualIncome : ℚ) (customRate : Option ℚ) :
    (TR.calculateAffordability annualIncome customRate).maxPrice
      = (if TR.calculateMaxPurchasePrice annualIncome (customRate.getD TR.FHA_RATE)
            TR.FHA_DOWN_PAYMENT TR.DTI_LIMIT > TR.FHA_LIMIT then
          TR.calculateMaxPurchasePrice annualIncome (customRate.getD TR.CONV_RATE)
            TR.CONV_DOWN_PAYMENT TR.DTI_LIMIT
        else
          TR.calculateMaxPurchasePrice annualIncome (customRate.getD TR.FHA_RATE)
            TR.FHA_DOWN_PAYMENT TR.DTI_LIMIT) := rfl

/-- C4 counterexample: at the negative income -120000 with the rate omitted,
calculateAffordability returns the negative price -654160, not the price 0 the
claim requires (the affordable-product list is empty as claimed). -/
theorem C4_counterexample :
    (TR.calculateAffordability (-120000) none).maxPrice = -654160 ∧
      ((-654160 : ℚ) ≠ 0) ∧
      (TR.calculateAffordability (-120000) none).affordableProducts = [] := by
  have h : TR.calculateMaxPurchasePrice (-120000) TR.FHA_RATE TR.FHA_DOWN_PAYMENT
      TR.DTI_LIMIT = -654160 := by
    norm_num [TR.calculateMaxPurchasePrice, TR.calculateMaxPurchasePriceReal, TR.FHA_RATE,
      TR.FHA_DOWN_PAYMENT, TR.DTI_LIMIT, TR.TAX_INS_HOA_RATE]
  refine ⟨?_, by norm_num, ?_⟩
  · simp [TR.calculateAffordability, Option.getD_none, h, TR.FHA_LIMIT]
    intro hcontra
    norm_num at hcontra
  · simp [TR.calculateAffordability, Option.getD_none, h, TR.FHA_LIMIT, TR.PRODUCTS,
      TR.INCOME_BANDS, TR.RENT_AFFORDABILITY]
    norm_num

/-- C4 amended: for nonpositive income and a positive effective rate the
result has an empty affordable-product list and a nonpositive monthly budget
and max price; the price is exactly 0 when the income is 0, but strictly
less than 0 is possible for negative incomes (see the counterexample). The
rate-0 case of the floating-point source produces NaN (0/0) and is outside
this exact-rational model. -/
theorem C4_degenerate_income_amended (annualIncome : ℚ) (customRate : Option ℚ)
    (hinc : annualIncome ≤ 0) (hrate : 0 < customRate.getD TR.FHA_RATE) :
    (TR.calculateAffordability annualIncome customRate).maxPrice ≤ 0 ∧
      (annualIncome = 0 →
        (TR.calculateAffordability annualIncome customRate).maxPrice = 0) ∧
      (TR.calculateAffordability annualIncome customRate).affordableProducts = [] ∧
      (TR.calculateAffordability annualIncome customRate).monthlyBudget ≤ 0 := by
  have hd : TR.FHA_DOWN_PAYMENT < 1 := by norm_num [TR.FHA_DOWN_PAYMENT]
  have ht : (0 : ℚ) ≤ TR.DTI_LIMIT := by norm_num [TR.DTI_LIMIT]
  have hP0 : TR.calculateMaxPurchasePrice annualIncome (customRate.getD TR.FHA_RATE)
      TR.FHA_DOWN_PAYMENT TR.DTI_LIMIT ≤ 0 := mpp_nonpos _ _ _ _ hinc hrate hd ht
  have hnotgt : ¬ (TR.calculateMaxPurchasePrice annualIncome (customRate.getD TR.FHA_RATE)
      TR.FHA_DOWN_PAYMENT TR.DTI_LIMIT > TR.FHA_LIMIT) :=
    not_lt.mpr (le_trans hP0 (by norm_num [TR.FHA_LIMIT]))
  have hrent : ¬ (annualIncome / 12 * TR.RENT_AFFORDABILITY ≥ 1700) := by
    rw [not_le, TR.RENT_AFFORDABILITY]
    nlinarith
  have hc : ¬ (TR.calculateMaxPurchasePrice annualIncome (customRate.getD TR.FHA_RATE)
      TR.FHA_DOWN_PAYMENT TR.DTI_LIMIT ≥ 450000) :=
    not_le.mpr (lt_of_le_of_lt hP0 (by norm_num))
  have hb : ¬ (TR.calculateMaxPurchasePrice annualIncome (customRate.getD TR.FHA_RATE)
      TR.FHA_DOWN_PAYMENT TR.DTI_LIMIT ≥ 620000) :=
    not_le.mpr (lt_of_le_of_lt hP0 (by norm_num))
  have htw : ¬ (TR.calculateMaxPurchasePrice annualIncome (customRate.getD TR.FHA_RATE)
      TR.FHA_DOWN_PAYMENT TR.DTI_LIMIT ≥ 1100000) :=
    not_le.mpr (lt_of_le_of_lt hP0 (by norm_num))
  refine ⟨?_, ?_, ?_, ?_⟩
  · simp only [TR.calculateAffordability]
    rw [if_neg hnotgt]
    exact hP0
  · intro h0
    subst h0
    have hz := mpp_zero (customRate.getD TR.FHA_RATE) TR.FHA_DOWN_PAYMENT TR.DTI_LIMIT
    simp [TR.calculateAffordability, hz, TR.FHA_LIMIT]
  · simp [TR.calculateAffordability, hnotgt, hrent, hc, hb, htw, TR.PRODUCTS,
      TR.INCOME_BANDS]
  · simp only [TR.calculateAffordability]
    rw [TR.DTI_LIMIT]
    nlinarith

/-- Witness for C4 at income 0 with the rate argument omitted. -/
theorem C4_witness :
    (0 : ℚ) ≤ 0 ∧ 0 < Option.getD (none : Option ℚ) TR.FHA_RATE ∧
      (TR.calculateAffordability 0 none).maxPrice = 0 ∧
      (TR.calculateAffordability 0 none).affordableProducts = [] :=
  ⟨le_refl 0, by norm_num [TR.FHA_RATE],
    (C4_degenerate_income_amended 0 none (le_refl 0) (by norm_num [TR.FHA_RATE])).2.1 rfl,
    (C4_degenerate_income_amended 0 none (le_refl 0) (by norm_num [TR.FHA_RATE])).2.2.1⟩

/-- Adding to one band raises the total band sum by exactly that amount. -/
lemma sumBands_addToBand (m : TR.IncomeBand → ℚ) (b : TR.IncomeBand) (q : ℚ) :
    sumBands (TR.addToBand m b q) = sumBands m + q := by
  cases b <;> simp [sumBands, TR.addToBand] <;> ring

/-- Processing one role adds its scaled count times its weight sum. -/
lemma sumBands_processRole (sf : ℚ) (y : ℤ) (s : TR.IncomeScenario)
    (acc : TR.IncomeBand → ℚ) (role : TR.Role) :
    sumBands (TR.processRole sf y s acc role)
      = sumBands acc + role.count * sf * splitSum role := by
  unfold TR.processRole splitSum
  simp only [sumBands_addToBand]
  ring

/-- Folding the role loop adds each role's scaled weighted count. -/
lemma sumBands_roleFold (sf : ℚ) (y : ℤ) (s : TR.IncomeScenario)
    (roles : List TR.Role) (acc : TR.IncomeBand → ℚ) :
    sumBands (roles.foldl (TR.processRole sf y s) acc)
      = sumBands acc + (roles.map (fun r => r.count * sf * splitSum r)).sum := by
  induction roles generalizing acc with
  | nil => simp
  | cons r rs ih =>
    simp only [List.foldl_cons, List.map_cons, List.sum_cons, ih, sumBands_processRole]
    ring

/-- C6: when every role's household-split weights sum to 1, the three weighted
sub-counts of each role sum to its scaled count, and the band-count map of
computeHouseholdBandCounts sums over all bands to the company's scaled total
headcount (exactly, in this rational model). -/
theorem C6_household_conservation (company : TR.Company) (targetYear : ℤ)
    (scenario : TR.IncomeScenario)
    (hw : ∀ role ∈ company.roles, splitSum role = 1) :
    (∀ role ∈ company.roles,
        role.count * TR.scaleFactorOf company targetYear * role.household_split.H1_single +
          role.count * TR.scaleFactorOf company targetYear * role.household_split.H2_dual_moderate +
          role.count * TR.scaleFactorOf company targetYear * role.household_split.H3_dual_peer
          = role.count * TR.scaleFactorOf company targetYear) ∧
      sumBands (TR.computeHouseholdBandCounts company targetYear scenario)
        = (company.roles.map
            (fun r => r.count * TR.scaleFactorOf company targetYear)).sum := by
  constructor
  · intro role hrole
    have h := hw role hrole
    rw [splitSum] at h
    linear_combination (role.count * TR.scaleFactorOf company targetYear) * h
  · unfold TR.computeHouseholdBandCounts
    simp only
    rw [sumBands_roleFold]
    have h0 : sumBands (fun _ => 0) = 0 := by simp [sumBands]
    rw [h0, zero_add]
    have hmap : company.roles.map
          (fun r => r.count * TR.scaleFactorOf company targetYear * splitSum r)
        = company.roles.map (fun r => r.count * TR.scaleFactorOf company targetYear) :=
      List.map_congr_left (fun r hr => by rw [hw r hr, mul_one])
    rw [hmap]

/-- Witness for C6 on the one-role example company (count 100, split
0.6/0.3/0.1, no projection anchors). -/
theorem C6_witness :
    (∀ role ∈ exampleCompany.roles, splitSum role = 1) ∧
      sumBands (TR.computeHouseholdBandCounts exampleCompany 2025 .base)
        = (exampleCompany.roles.map
            (fun r => r.count * TR.scaleFactorOf exampleCompany 2025)).sum := by
  have hw : ∀ role ∈ exampleCompany.roles, splitSum role = 1 := by
    intro role hr
    simp only [exampleCompany, List.mem_singleton] at hr
    subst hr
    norm_num [splitSum]
  exact ⟨hw, (C6_household_conservation exampleCompany 2025 .base hw).2⟩

/-- C7 counterexample: called on a lookup table that misses every key, the
summariser returns normally with a zero count and zero percentage for every
product; no error of any kind is raised (the function is total and has no
error channel). -/
theorem C7_counterexample :
    TR.summarizeDemandByProduct exampleBandCounts (fun _ _ => none) TR.FHA_RATE
      = [⟨.apartments, 0, 0⟩, ⟨.condos, 0, 0⟩, ⟨.blackridge, 0, 0⟩,
          ⟨.townhouses, 0, 0⟩] := by
  norm_num [TR.summarizeDemandByProduct, exampleBandCounts, TR.jsRound, List.foldl]

/-- C7 amended: when the lookup table has no entry for any band at the queried
rate key, summarizeDemandByProduct silently returns a summary with zero count
and zero percentage for every product instead of raising an error. -/
theorem C7_lookup_miss_silent (counts : TR.IncomeBand → ℚ)
    (lookup : TR.IncomeBand → ℤ → Option TR.BandAffordability) (rate : ℚ)
    (hmiss : ∀ b, lookup b (TR.rateKeyHundredths rate) = none) :
    TR.summarizeDemandByProduct counts lookup rate
      = [⟨.apartments, 0, 0⟩, ⟨.condos, 0, 0⟩, ⟨.blackridge, 0, 0⟩,
          ⟨.townhouses, 0, 0⟩] := by
  unfold TR.summarizeDemandByProduct
  simp only [hmiss, List.foldl]
  norm_num [TR.jsRound]

/-- Witness for C7 on the example band counts and the everywhere-missing
lookup table at the FHA rate. -/
theorem C7_witness :
    (∀ b, (fun (_ : TR.IncomeBand) (_ : ℤ) => (none : Option TR.BandAffordability)) b
        (TR.rateKeyHundredths TR.FHA_RATE) = none) ∧
      TR.summarizeDemandByProduct exampleBandCounts (fun _ _ => none) TR.FHA_RATE
        = [⟨.apartments, 0, 0⟩, ⟨.condos, 0, 0⟩, ⟨.blackridge, 0, 0⟩,
            ⟨.townhouses, 0, 0⟩] :=
  ⟨fun _ => rfl,
    C7_lookup_miss_silent exampleBandCounts (fun _ _ => none) TR.FHA_RATE (fun _ => rfl)⟩

/-- The reciprocal of the mortgage factor is the 360-term annuity
present-value sum of the powers of 1 / (1 + s). -/
lemma invSum_eq (s : ℚ) (hs : 0 < s) :
    (Finset.range 360).sum (fun k => (1 / (1 + s)) ^ (k + 1))
      = ((1 + s) ^ (360 : ℕ) - 1) / (s * (1 + s) ^ (360 : ℕ)) := by
  have h1 : (0 : ℚ) < 1 + s := by linarith
  have hne : (1 : ℚ) + s ≠ 0 := ne_of_gt h1
  have hxlt : (1 / (1 + s) : ℚ) < 1 := by rw [div_lt_one h1]; linarith
  have hx : (1 / (1 + s) : ℚ) ≠ 1 := ne_of_lt hxlt
  rw [Finset.sum_congr rfl fun k _ => pow_succ' (1 / (1 + s)) k]
  rw [← Finset.mul_sum, geom_sum_eq hx, one_div_pow]
  have hA := one_lt_onePlusPow s hs
  have hAne : ((1 + s : ℚ)) ^ (360 : ℕ) ≠ 0 := pow_ne_zero _ hne
  generalize ((1 : ℚ) + s) ^ (360 : ℕ) = A at hA hAne ⊢
  have hs' : s ≠ 0 := ne_of_gt hs
  have hd1 : (1 / (1 + s) : ℚ) - 1 ≠ 0 := by
    intro h
    have : (1 / (1 + s) : ℚ) = 1 := by linarith
    exact hx this
  field_simp
  ring

/-- The annuity sum is strictly decreasing in the monthly rate. -/
lemma invSum_anti (s1 s2 : ℚ) (h1 : 0 < s1) (h12 : s1 < s2) :
    (Finset.range 360).sum (fun k => (1 / (1 + s2)) ^ (k + 1))
      < (Finset.range 360).sum (fun k => (1 / (1 + s1)) ^ (k + 1)) := by
  apply Finset.sum_lt_sum_of_nonempty
  · exact Finset.nonempty_range_iff.mpr (by norm_num)
  · intro k _
    have hp1 : (0 : ℚ) < 1 + s1 := by linarith
    have hlt : (1 / (1 + s2) : ℚ) < 1 / (1 + s1) :=
      one_div_lt_one_div_of_lt hp1 (by linarith)
    have hp2 : (0 : ℚ) < 1 + s2 := by linarith
    have hpos : (0 : ℚ) ≤ 1 / (1 + s2) := le_of_lt (div_pos one_pos hp2)
    exact pow_lt_pow_left₀ hlt hpos (Nat.succ_ne_zero k)

/-- The mortgage factor is strictly increasing in the monthly rate. -/
lemma mf_lt_mf (s1 s2 : ℚ) (h1 : 0 < s1) (h12 : s1 < s2) :
    s1 * (1 + s1) ^ (360 : ℕ) / ((1 + s1) ^ (360 : ℕ) - 1)
      < s2 * (1 + s2) ^ (360 : ℕ) / ((1 + s2) ^ (360 : ℕ) - 1) := by
  have h2 : (0 : ℚ) < s2 := by linarith
  have key : ((1 + s2) ^ (360 : ℕ) - 1) / (s2 * (1 + s2) ^ (360 : ℕ))
      < ((1 + s1) ^ (360 : ℕ) - 1) / (s1 * (1 + s1) ^ (360 : ℕ)) := by
    rw [← invSum_eq s1 h1, ← invSum_eq s2 h2]
    exact invSum_anti s1 s2 h1 h12
  have hA1 := one_lt_onePlusPow s1 h1
  have hA2 := one_lt_onePlusPow s2 h2
  generalize ((1 : ℚ) + s1) ^ (360 : ℕ) = A1 at key hA1 ⊢
  generalize ((1 : ℚ) + s2) ^ (360 : ℕ) = A2 at key hA2 ⊢
  have hinv2 : 0 < (A2 - 1) / (s2 * A2) :=
    div_pos (by linarith) (mul_pos h2 (by linarith))
  have hlt := one_div_lt_one_div_of_lt hinv2 key
  rw [one_div_div, one_div_div] at hlt
  exact hlt

/-- Strict decrease of the real price in the denominator, over atoms. -/
lemma priceAtom_rate_anti (M s1 s2 A1 A2 d : ℚ) (hM : 0 < M) (hs1 : 0 < s1)
    (_hs2 : 0 < s2) (hA1 : 1 < A1) (_hA2 : 1 < A2) (hd : d < 1)
    (hmf : s1 * A1 / (A1 - 1) < s2 * A2 / (A2 - 1)) :
    M / ((1 - d) * (s2 * A2 / (A2 - 1)) + TR.TAX_INS_HOA_RATE / 12)
      < M / ((1 - d) * (s1 * A1 / (A1 - 1)) + TR.TAX_INS_HOA_RATE / 12) := by
  have hD1 := denomAtom_pos s1 A1 d hs1 hA1 hd
  have hDlt : (1 - d) * (s1 * A1 / (A1 - 1)) + TR.TAX_INS_HOA_RATE / 12
      < (1 - d) * (s2 * A2 / (A2 - 1)) + TR.TAX_INS_HOA_RATE / 12 := by
    have h1d : (0 : ℚ) < 1 - d := by linarith
    have h2 := mul_lt_mul_of_pos_left hmf h1d
    linarith
  exact div_lt_div_of_pos_left hM hD1 hDlt

/-- The real-valued price is strictly increasing in income. -/
lemma mppReal_income_strict (a1 a2 r d t : ℚ) (h12 : a1 < a2) (hr : 0 < r)
    (hd : d < 1) (ht : 0 < t) :
    TR.calculateMaxPurchasePriceReal a1 r d t
      < TR.calculateMaxPurchasePriceReal a2 r d t := by
  have hs : (0 : ℚ) < r / 12 := by linarith
  have hA := one_lt_onePlusPow (r / 12) hs
  unfold TR.calculateMaxPurchasePriceReal
  simp only
  generalize ((1 : ℚ) + r / 12) ^ (360 : ℕ) = A at hA ⊢
  have hD := denomAtom_pos (r / 12) A d hs hA hd
  rw [div_lt_div_iff_of_pos_right hD]
  have ha : a1 / 12 < a2 / 12 := by linarith
  exact mul_lt_mul_of_pos_right ha ht

/-- The real-valued price is strictly decreasing in the interest rate. -/
lemma mppReal_rate_strict (a r1 r2 d t : ℚ) (ha : 0 < a) (hr1 : 0 < r1)
    (h12 : r1 < r2) (hd : d < 1) (ht : 0 < t) :
    TR.calculateMaxPurchasePriceReal a r2 d t
      < TR.calculateMaxPurchasePriceReal a r1 d t := by
  have hs1 : (0 : ℚ) < r1 / 12 := by linarith
  have hs2 : (0 : ℚ) < r2 / 12 := by linarith
  have hmf := mf_lt_mf (r1 / 12) (r2 / 12) hs1 (by linarith)
  have hA1 := one_lt_onePlusPow (r1 / 12) hs1
  have hA2 := one_lt_onePlusPow (r2 / 12) hs2
  unfold TR.calculateMaxPurchasePriceReal
  simp only
  have hM : 0 < a / 12 * t := mul_pos (by linarith) ht
  generalize ((1 : ℚ) + r1 / 12) ^ (360 : ℕ) = A1 at hmf hA1 ⊢
  generalize ((1 : ℚ) + r2 / 12) ^ (360 : ℕ) = A2 at hmf hA2 ⊢
  exact priceAtom_rate_anti (a / 12 * t) (r1 / 12) (r2 / 12) A1 A2 d hM
    hs1 hs2 hA1 hA2 hd hmf

/-- C8 counterexample: at the valid parameters rate 12, down payment 0, DTI 1,
the incomes 12 and 12.01 are distinct yet produce the same floored price, so
the floored calculateMaxPurchasePrice is not strictly increasing in income. -/
theorem C8_counterexample :
    (0 : ℚ) < 12 ∧ (12 : ℚ) < 1201 / 100 ∧ (0 : ℚ) ≤ 0 ∧ (0 : ℚ) < 1 ∧ (0 : ℚ) < 1 ∧
      TR.calculateMaxPurchasePrice 12 12 0 1
        = TR.calculateMaxPurchasePrice (1201 / 100) 12 0 1 := by
  refine ⟨by norm_num, by norm_num, le_refl 0, by norm_num, by norm_num, ?_⟩
  norm_num [TR.calculateMaxPurchasePrice, TR.calculateMaxPurchasePriceReal,
    TR.TAX_INS_HOA_RATE]

/-- C8 amended: within the documented parameter ranges (positive rate, down
payment in [0,1), positive DTI) the real-valued price before flooring is
strictly increasing in income and strictly decreasing in the interest rate,
and the floored price returned by calculateMaxPurchasePrice is weakly
increasing in income and weakly decreasing in the rate; strictness of the
floored value fails (see the counterexample). -/
theorem C8_monotonicity_amended (a1 a2 a r r1 r2 d dti : ℚ)
    (hr : 0 < r) (hd0 : 0 ≤ d) (hd1 : d < 1) (hdti : 0 < dti)
    (ha1 : 0 < a1) (ha12 : a1 < a2) (ha : 0 < a) (hr1 : 0 < r1) (hr12 : r1 < r2) :
    (TR.calculateMaxPurchasePriceReal a1 r d dti
        < TR.calculateMaxPurchasePriceReal a2 r d dti ∧
      TR.calculateMaxPurchasePrice a1 r d dti
        ≤ TR.calculateMaxPurchasePrice a2 r d dti) ∧
      (TR.calculateMaxPurchasePriceReal a r2 d dti
          < TR.calculateMaxPurchasePriceReal a r1 d dti ∧
        TR.calculateMaxPurchasePrice a r2 d dti
          ≤ TR.calculateMaxPurchasePrice a r1 d dti) := by
  have h1 := mppReal_income_strict a1 a2 r d dti ha12 hr hd1 hdti
  have h2 := mppReal_rate_strict a r1 r2 d dti ha hr1 hr12 hd1 hdti
  refine ⟨⟨h1, ?_⟩, h2, ?_⟩
  · unfold TR.calculateMaxPurchasePrice
    exact_mod_cast Int.floor_le_floor (le_of_lt h1)
  · unfold TR.calculateMaxPurchasePrice
    exact_mod_cast Int.floor_le_floor (le_of_lt h2)

/-- Witness for C8 at incomes 100000 and 200000 and rates 6.15 and 6.45
percent with the FHA down payment and default DTI. -/
theorem C8_witness :
    (0 : ℚ) < 0.0615 ∧ (0 : ℚ) ≤ 0.035 ∧ (0.035 : ℚ) < 1 ∧ (0 : ℚ) < 0.45 ∧
      (0 : ℚ) < 100000 ∧ (100000 : ℚ) < 200000 ∧ (0.0615 : ℚ) < 0.0645 ∧
      TR.calculateMaxPurchasePrice 100000 0.0615 0.035 0.45
        ≤ TR.calculateMaxPurchasePrice 200000 0.0615 0.035 0.45 ∧
      TR.calculateMaxPurchasePrice 100000 0.0645 0.035 0.45
        ≤ TR.calculateMaxPurchasePrice 100000 0.0615 0.035 0.45 := by
  have h := C8_monotonicity_amended 100000 200000 100000 0.0615 0.0615 0.0645 0.035 0.45
    (by norm_num) (by norm_num) (by norm_num) (by norm_num) (by norm_num)
    (by norm_num) (by norm_num) (by norm_num) (by norm_num)
  exact ⟨by norm_num, by norm_num, by norm_num, by norm_num, by norm_num, by norm_num,
    by norm_num, h.1.2, h.2.2⟩
